import Mathlib

/-!
Verification model of the health-check engine in `src/checks.c`
(functions `set_server_down`, `event_srv_chk_w`, `event_srv_chk_r`,
`process_chk`).

Modelling conventions:
* `struct timeval` times are milliseconds as `Nat`; `tv_isle a b` is `a ≤ b`
  and `tv_ms_add dst src ms` is `dst := src + ms`.
* `s->result` is the C `int` scalar: `0` unset, `1` success, `-1` failure.
* `s->curfd` is an `Int`; negative means "no check in progress".
* External collaborators (`recount_servers`, `recalc_server_map`,
  `send_log`, `Alert`, `pendconn_free`, `task_wakeup`, `fd_insert`,
  `fd_delete`, `close`) are recorded as events in an event list, in the
  order the C code invokes them.  The post-`recount_servers` values of
  `proxy->srv_act` / `proxy->srv_bck` and the value of
  `srv_dynamic_maxconn(s)` are inputs of the model (`Cfg.postAct`,
  `Cfg.postBck`, `Cfg.dynMax`), since those functions live outside
  `src/`.
* `pendconn_from_px` is modelled from the spec: a FIFO pop from the
  backend-wide pending queue (`ChkState.pendPx`), as stated in spec §6.
* A session's flag word is split into the three named sticky bits plus an
  opaque remainder, so `flags &= ~(SN_DIRECT|SN_ASSIGNED|SN_ADDR_SET)`
  becomes clearing the three booleans.
-/

namespace Checks

/-- Events: the calls `process_chk` / `set_server_down` make into external
collaborators, in program order.  `register fd` stands for the block
`curfd := fd; fd_insert(fd); fdtab[fd] setup; EV_FD_SET(fd, DIR_WR)` at
checks.c:396-405; `closeFd` is the `close(fd)` at checks.c:419; `fdDelete`
is `fd_delete(fd)` at checks.c:489/504. -/
inductive Ev where
  | recount
  | recalcMap
  | logAlert
  | logEmerg
  | logNotice
  | alertBind
  | freePend (pid : Nat)
  | wakeSess (pid : Nat)
  | register (fd : Int)
  | closeFd (fd : Int)
  | fdDelete (fd : Int)
  deriving DecidableEq

/-- Session fields touched by the checker (checks.c:69-78, 468-471):
the three sticky flags stripped on redispatch, the opaque rest of the
flag word, the chosen server, the cookie-derived routing state
(`http_flush_cookie_flags`), the backend's `PR_O_REDISP` bit, and whether
`task_wakeup(sess->task)` was called on it. -/
structure Sess where
  direct : Bool
  assigned : Bool
  addrSet : Bool
  otherFlags : Nat
  srv : Option Nat
  cookieFlushed : Bool
  beRedisp : Bool
  woken : Bool
  deriving DecidableEq

/-- One entry of a pending-connection queue. -/
structure Pendconn where
  pid : Nat
  sess : Sess
  deriving DecidableEq

/-- Server fields the checker reads or writes (types/server.h usage in
checks.c).  `running` is the `SRV_RUNNING` bit of `s->state`. -/
structure Server where
  sid : Nat
  health : Nat
  rise : Nat
  fall : Nat
  running : Bool
  failedChecks : Nat
  downTrans : Nat
  result : Int
  curfd : Int
  inter : Nat
  maxconn : Nat
  deriving DecidableEq

/-- Immutable configuration of one tick: server/proxy flags read by
`process_chk`, plus the outputs of the external collaborators
(`srv_dynamic_maxconn`, post-recount server counts). -/
structure Cfg where
  checked : Bool
  stopped : Bool
  bindSrc : Bool
  pxBindSrc : Bool
  maxsock : Int
  dynMax : Nat
  postAct : Nat
  postBck : Nat
  deriving DecidableEq

/-- The errno outcomes distinguished by checks.c:391 and checks.c:414. -/
inductive CErr where
  | einprogress
  | ealready
  | eagain
  | eisconn
  | other
  deriving DecidableEq

/-- Outcome of the `connect()` call at probe initiation (checks.c:391):
either it returned `0`, or `-1` with the given errno. -/
inductive ConnectRes where
  | ok
  | err (e : CErr)
  deriving DecidableEq

/-- OS responses consumed by one probe-initiation attempt:
`socket()` result (`-1` on failure), `fcntl`/`setsockopt` success,
`bind()` success, and the `connect()` outcome. -/
structure Env where
  socketFd : Int
  fcntlOk : Bool
  nodelayOk : Bool
  bindOk : Bool
  connectRes : ConnectRes
  deriving DecidableEq

/-- Mutable state of one check task: the server record, the task's
`expire` deadline, the server-local pending queue `s->pendconns`, and the
backend-wide pending queue drained by `pendconn_from_px`. -/
structure ChkState where
  srv : Server
  expire : Nat
  pendS : List Pendconn
  pendPx : List Pendconn
  deriving DecidableEq

/-- Fuel-indexed model of `while (tv_isle(&t->expire, &now))
tv_ms_add(&t->expire, &t->expire, s->inter);` (checks.c:301-302, 424-425,
439-440, 490-491, 505-506).  The C loop terminates exactly when
`inter ≥ 1`; the fuel `now + 1 - expire` bounds its iteration count in
that case (proved in `rephaseAux_spec`). -/
def rephaseAux : Nat → Nat → Nat → Nat → Nat
  | 0, expire, _, _ => expire
  | Nat.succ k, expire, now, inter =>
    if expire ≤ now then rephaseAux k (expire + inter) now inter else expire

/-- Advance `expire` by whole `inter` steps until it passes `now`. -/
def rephase (expire now inter : Nat) : Nat :=
  rephaseAux (now + 1 - expire) expire now inter

/-- The per-session effect of the UP-edge drain loop body
(checks.c:468-471): `p->sess->srv = s; ...; task_wakeup(sess->task)`. -/
def drain_sess (sid : Nat) (sess : Sess) : Sess :=
  { sess with srv := some sid, woken := true }

/-- The UP-edge drain loop (checks.c:461-472):
`for (xferred = 0; !s->maxconn || xferred < srv_dynamic_maxconn(s);
xferred++) { p = pendconn_from_px(s->proxy); if (!p) break; ... }`.
Returns the reassigned sessions, the remaining backend queue, and the
`pendconn_free`/`task_wakeup` events in loop order.  `pendconn_from_px`
is modelled from the spec as a FIFO pop from the queue. -/
def drain (sid maxconn dynMax : Nat) (q : List Pendconn) (xferred : Nat) :
    List Sess × List Pendconn × List Ev :=
  if maxconn ≠ 0 ∧ dynMax ≤ xferred then ([], q, [])
  else
    match q with
    | [] => ([], [], [])
    | p :: rest =>
      let r := drain sid maxconn dynMax rest (xferred + 1)
      (drain_sess sid p.sess :: r.1, r.2.1,
       Ev.freePend p.pid :: Ev.wakeSess p.pid :: r.2.2)
termination_by q.length

/-- The per-session effect of the DOWN-edge redispatch loop body
(checks.c:74-78): strip `SN_DIRECT|SN_ASSIGNED|SN_ADDR_SET`, clear
`sess->srv`, `http_flush_cookie_flags`, `pendconn_free`, `task_wakeup`. -/
def redisp_sess (sess : Sess) : Sess :=
  { sess with direct := false, assigned := false, addrSet := false,
              srv := none, cookieFlushed := true, woken := true }

/-- Model of `set_server_down` (checks.c:51-100).  Clears `SRV_RUNNING`;
if `health == rise` runs the DOWN edge: recount, recalc, redispatch every
pending connection whose session backend has `PR_O_REDISP`, log at ALERT,
additionally log at EMERG when the recounted backend has no active and no
backup server, and increment `down_trans`.  Always ends with
`health := 0`.  Returns the updated server, the surviving entries of
`s->pendconns`, the redispatched sessions, and the emitted events. -/
def set_server_down (s : Server) (pend : List Pendconn)
    (postAct postBck : Nat) :
    Server × List Pendconn × List Sess × List Ev :=
  if s.health = s.rise then
    ({ s with running := false, health := 0, downTrans := s.downTrans + 1 },
     pend.filter (fun p => !p.sess.beRedisp),
     (pend.filter (fun p => p.sess.beRedisp)).map (fun p => redisp_sess p.sess),
     [Ev.recount, Ev.recalcMap] ++
       (pend.filter (fun p => p.sess.beRedisp)).flatMap
         (fun p => [Ev.freePend p.pid, Ev.wakeSess p.pid]) ++
       [Ev.logAlert] ++
       (if postBck = 0 ∧ postAct = 0 then [Ev.logEmerg] else []))
  else
    ({ s with running := false, health := 0 }, pend, [], [])

/-- The failure consumption step of `process_chk` (checks.c:430-435 and
checks.c:497-502): `if (s->health > s->rise) { s->health--;
s->failed_checks++; } else set_server_down(s);`. -/
def consume_fail (s : Server) (pend : List Pendconn)
    (postAct postBck : Nat) :
    Server × List Pendconn × List Sess × List Ev :=
  if s.rise < s.health then
    ({ s with health := s.health - 1, failedChecks := s.failedChecks + 1 },
     pend, [], [])
  else
    set_server_down s pend postAct postBck

/-- The success consumption step of `process_chk` (checks.c:446-487):
`s->health++; if (s->health >= s->rise) { s->state |= SRV_RUNNING;
if (s->health == s->rise) { UP edge }; s->health = rise + fall - 1; }`. -/
def consume_succ (s : Server) (pendPx : List Pendconn) (dynMax : Nat) :
    Server × List Pendconn × List Sess × List Ev :=
  if s.rise ≤ s.health + 1 then
    if s.health + 1 = s.rise then
      let d := drain s.sid s.maxconn dynMax pendPx 0
      ({ s with running := true, health := s.rise + s.fall - 1 },
       d.2.1, d.1,
       [Ev.recount, Ev.recalcMap] ++ d.2.2 ++ [Ev.logNotice])
    else
      ({ s with running := true, health := s.rise + s.fall - 1 },
       pendPx, [], [])
  else
    ({ s with health := s.health + 1 }, pendPx, [], [])

/-- The server-field part of a consumed failed probe (projection of
`consume_fail`; the dropped components are the queue, session and event
outputs, which do not feed back into the server fields). -/
def check_fail (s : Server) : Server :=
  (consume_fail s [] 0 0).1

/-- The server-field part of a consumed successful probe (projection of
`consume_succ`). -/
def check_succ (s : Server) : Server :=
  (consume_succ s [] 0).1

/-- The DOWN-edge condition: `set_server_down` runs its edge block iff
the server enters it with `health == rise` (checks.c:59). -/
def fail_edge (s : Server) : Prop :=
  s.health = s.rise

/-- The UP-edge condition: the edge block at checks.c:452 runs iff the
incremented health equals `rise`. -/
def succ_edge (s : Server) : Prop :=
  s.health + 1 = s.rise

/-- Output of one task tick: next state (whose `expire` is also the
`*next` out-parameter), sessions reassigned or redispatched this tick,
and the events emitted, in order. -/
abbrev Out := ChkState × List Sess × List Ev

/-- Prefix events and reassigned sessions onto a tick continuation. -/
def addOut (evs : List Ev) (moved : List Sess) (o : Out) : Out :=
  (o.1, moved ++ o.2.1, evs ++ o.2.2)

/-- One pass of the body of `process_chk` (checks.c:287-516), with every
`goto new_chk` replaced by the continuation `cont`.  Branch map:
* `curfd < 0`, `expire > now`: spurious timer fire, re-queue (291-295);
* `!CHECKED || proxy stopped`: re-phase and re-queue (300-306);
* `socket()` failure: nothing done, re-phase, retry (310, 422-427);
* fd over `maxsock` / `fcntl` / `setsockopt` failure: `close(fd)`,
  nothing done (311-313, 419);
* bind failure: Alert, `result = -1`, no connect, `close(fd)`, failure
  consumed (331-388, 419, 429-441);
* `connect()` returning 0 or `EINPROGRESS`: register the fd, set
  `expire = now + inter` — followed by the unconditional `close(fd)` at
  419 (the fall-through: there is no early return after 412);
* `connect()` errno `EALREADY`/`EISCONN`/`EAGAIN`: no result, `close`,
  re-phase, retry (414, 419, 422-427);
* any other `connect()` errno: `result = -1`, failure consumed (414-416);
* in-flight probe: success consumed (446-492), failure or timeout
  consumed (494-507), else keep waiting (509-514). -/
def chk_body (cfg : Cfg) (env : Env) (now : Nat) (cont : ChkState → Out)
    (st : ChkState) : Out :=
  if st.srv.curfd < 0 then
    if now < st.expire then
      (st, [], [])
    else if cfg.checked = false ∨ cfg.stopped = true then
      ({ st with expire := rephase st.expire now st.srv.inter }, [], [])
    else if env.socketFd = -1 then
      cont { st with srv := { st.srv with result := 0 },
                     expire := rephase st.expire now st.srv.inter }
    else if ¬ (env.socketFd < cfg.maxsock ∧ env.fcntlOk = true ∧
               env.nodelayOk = true) then
      addOut [Ev.closeFd env.socketFd] []
        (cont { st with srv := { st.srv with result := 0 },
                        expire := rephase st.expire now st.srv.inter })
    else if (cfg.bindSrc = true ∨ cfg.pxBindSrc = true) ∧
            env.bindOk = false then
      let c := consume_fail { st.srv with result := -1 } st.pendS
                 cfg.postAct cfg.postBck
      addOut ([Ev.alertBind, Ev.closeFd env.socketFd] ++ c.2.2.2) c.2.2.1
        (cont { st with srv := c.1, pendS := c.2.1,
                        expire := rephase st.expire now st.srv.inter })
    else
      match env.connectRes with
      | ConnectRes.ok | ConnectRes.err CErr.einprogress =>
        addOut [Ev.register env.socketFd, Ev.closeFd env.socketFd] []
          (cont { st with srv := { st.srv with result := 0,
                                               curfd := env.socketFd },
                          expire := rephase (now + st.srv.inter) now
                                      st.srv.inter })
      | ConnectRes.err CErr.ealready | ConnectRes.err CErr.eisconn
      | ConnectRes.err CErr.eagain =>
        addOut [Ev.closeFd env.socketFd] []
          (cont { st with srv := { st.srv with result := 0 },
                          expire := rephase st.expire now st.srv.inter })
      | ConnectRes.err CErr.other =>
        let c := consume_fail { st.srv with result := -1 } st.pendS
                   cfg.postAct cfg.postBck
        addOut ([Ev.closeFd env.socketFd] ++ c.2.2.2) c.2.2.1
          (cont { st with srv := c.1, pendS := c.2.1,
                          expire := rephase st.expire now st.srv.inter })
  else
    if 0 < st.srv.result then
      let c := consume_succ st.srv st.pendPx cfg.dynMax
      addOut (c.2.2.2 ++ [Ev.fdDelete st.srv.curfd]) c.2.2.1
        (cont { st with srv := { c.1 with curfd := -1 }, pendPx := c.2.1,
                        expire := rephase st.expire now st.srv.inter })
    else if st.srv.result < 0 ∨ st.expire ≤ now then
      let c := consume_fail st.srv st.pendS cfg.postAct cfg.postBck
      addOut (c.2.2.2 ++ [Ev.fdDelete st.srv.curfd]) c.2.2.1
        (cont { st with srv := { c.1 with curfd := -1 }, pendS := c.2.1,
                        expire := rephase st.expire now st.srv.inter })
    else
      ({ st with srv := { st.srv with result := 0 } }, [], [])

/-- Fuel-indexed iteration of `chk_body`: each `goto new_chk` spends one
unit of fuel.  With `inter ≥ 1` a tick terminates within two passes, so
the fuel of `process_chk` is never exhausted. -/
def chk_tick : Nat → Cfg → Env → Nat → ChkState → Out
  | 0, _, _, _, st => (st, [], [])
  | Nat.succ fuel, cfg, env, now, st =>
    chk_body cfg env now (chk_tick fuel cfg env now) st

/-- One invocation of `process_chk` for server `st.srv` at time `now`. -/
def process_chk (cfg : Cfg) (env : Env) (now : Nat) (st : ChkState) : Out :=
  chk_tick 4 cfg env now st

/-- First seven bytes of the HTTP status line checked at checks.c:247:
the ASCII codes of `HTTP/1.` (the `memcmp(reply, "HTTP/1.", 7)`). -/
def http_sig : List Nat := [72, 84, 84, 80, 47, 49, 46]

/-- Options bits of the proxy relevant to reply classification. -/
structure ChkOpts where
  httpChk : Bool
  ssl3Chk : Bool
  smtpChk : Bool
  deriving DecidableEq

/-- Reply classification of `event_srv_chk_r` (checks.c:246-259), on a
reply of `reply.length` received bytes.  Follows the `else if` chain of
the source.  Note `sizeof("HTTP/1.0 000")` is 13 (the terminating NUL is
counted), so the HTTP arm requires at least 13 bytes.  Byte 50 is `'2'`,
51 is `'3'`. -/
def chk_classify (opts : ChkOpts) (reply : List Nat) : Int :=
  if opts.httpChk = true ∧ 13 ≤ reply.length ∧ reply.take 7 = http_sig ∧
     (reply.getD 9 0 = 50 ∨ reply.getD 9 0 = 51) then 1
  else if opts.ssl3Chk = true ∧ 5 ≤ reply.length ∧
          (reply.getD 0 0 = 0x15 ∨ reply.getD 0 0 = 0x16) then 1
  else if opts.smtpChk = true ∧ 3 ≤ reply.length ∧ reply.getD 0 0 = 50
    then 1
  else -1

/-- Outcome of the `recv()` at checks.c:232-238: `EAGAIN`, or a buffer of
received bytes (0 bytes when the peer closed). -/
inductive RecvRes where
  | again
  | data (bytes : List Nat)
  deriving DecidableEq

/-- Model of the read-side handler `event_srv_chk_r` (checks.c:209-272)
acting on `s->result`.  Input `sockErr` covers
`fdtab[fd].state == FD_STERROR || (ev & FD_POLL_ERR) || getsockopt
failure || skerr != 0` (221-224); `prev` is the value of `s->result` at
entry.  Returns the new `s->result` and `true` when the task is woken
(`false` = repoll).  The socket-error arm writes `-1` unconditionally
(226); the classification arm is gated by `if (s->result != -1)`
(264-265). -/
def event_srv_chk_r (sockErr : Bool) (opts : ChkOpts) (rcv : RecvRes)
    (prev : Int) : Int × Bool :=
  if sockErr = true then (-1, true)
  else
    match rcv with
    | RecvRes.again => (prev, false)
    | RecvRes.data bytes =>
      (if prev ≠ -1 then chk_classify opts bytes else prev, true)

/-! Concrete inputs used by witnesses and counterexamples. -/

/-- A server with `rise = 2`, `fall = 3` at steady UP
(`health = rise + fall - 1 = 4`), no probe in flight. -/
def srvW : Server :=
  { sid := 0, health := 4, rise := 2, fall := 3, running := true,
    failedChecks := 0, downTrans := 0, result := 0, curfd := -1,
    inter := 5, maxconn := 0 }

/-- Baseline tick configuration: checks enabled, proxy running, no
source binding, one active server left after recount. -/
def cfgW : Cfg :=
  { checked := true, stopped := false, bindSrc := false,
    pxBindSrc := false, maxsock := 100, dynMax := 2, postAct := 1,
    postBck := 0 }

/-- OS responses: socket 7 created, non-blocking setup fine, connect
reports `EINPROGRESS`. -/
def envInprog : Env :=
  { socketFd := 7, fcntlOk := true, nodelayOk := true, bindOk := true,
    connectRes := ConnectRes.err CErr.einprogress }

/-- OS responses identical to `envInprog` except `connect()` fails with
`EISCONN`. -/
def envIsconn : Env :=
  { socketFd := 7, fcntlOk := true, nodelayOk := true, bindOk := true,
    connectRes := ConnectRes.err CErr.eisconn }

/-- Task state with no probe in flight and an expired deadline. -/
def stIdle : ChkState :=
  { srv := srvW, expire := 0, pendS := [], pendPx := [] }

/-- A redispatchable session queued on the server. -/
def sessRedisp : Sess :=
  { direct := true, assigned := true, addrSet := true, otherFlags := 8,
    srv := some 0, cookieFlushed := false, beRedisp := true,
    woken := false }

/-- A non-redispatchable session queued on the server. -/
def sessSticky : Sess :=
  { direct := true, assigned := false, addrSet := false, otherFlags := 3,
    srv := some 0, cookieFlushed := false, beRedisp := false,
    woken := false }

/-- A session waiting in the backend-wide queue. -/
def sessPx : Sess :=
  { direct := false, assigned := false, addrSet := false,
    otherFlags := 0, srv := none, cookieFlushed := false,
    beRedisp := true, woken := false }

/-- In-flight failed probe on a server with one probe's cushion left
(`health = rise = 2`), with two pending connections queued on it. -/
def stDown : ChkState :=
  { srv := { srvW with health := 2, curfd := 9, result := -1 },
    expire := 40, pendS := [⟨21, sessRedisp⟩, ⟨22, sessSticky⟩],
    pendPx := [] }

/-- In-flight successful probe on a fully-down server about to cross
`rise` (`health = 1`, `rise = 2`), three sessions in the backend
queue. -/
def stUp : ChkState :=
  { srv := { srvW with health := 1, running := false, curfd := 9,
                       result := 1, maxconn := 1 },
    expire := 40, pendS := [],
    pendPx := [⟨31, sessPx⟩, ⟨32, sessPx⟩, ⟨33, sessPx⟩] }

/-- In-flight successful probe on an UP server that lost its cushion:
two failures after steady UP left `health = rise = 2`. -/
def stRegain : ChkState :=
  { srv := { srvW with health := 2, curfd := 9, result := 1 },
    expire := 40, pendS := [], pendPx := [] }

/-- The twelve bytes of `HTTP/1.1 200`: 12 = len("HTTP/1.0 000") without
the terminating NUL, enough for the claim's bound but one short of the
`sizeof` bound the code uses. -/
def reply12 : List Nat := [72, 84, 84, 80, 47, 49, 46, 49, 32, 50, 48, 48]

/-- HTTP-only check options. -/
def optsHttp : ChkOpts := { httpChk := true, ssl3Chk := false, smtpChk := false }

/-- SSL3-only check options. -/
def optsSsl : ChkOpts := { httpChk := false, ssl3Chk := true, smtpChk := false }

/-- SMTP-only check options. -/
def optsSmtp : ChkOpts := { httpChk := false, ssl3Chk := false, smtpChk := true }

/-- A fully-down variant of `srvW` (`health = 0`, not RUNNING). -/
def srvD0 : Server := { srvW with health := 0, running := false }

/-- Task state whose phase is the multiples of 4 (`expire = 4`,
`inter = 4`), probed at `now = 5`. -/
def stPhase : ChkState :=
  { srv := { srvW with inter := 4 }, expire := 4, pendS := [], pendPx := [] }

/-- OS responses where `socket()` itself fails. -/
def envNoSock : Env :=
  { socketFd := -1, fcntlOk := true, nodelayOk := true, bindOk := true,
    connectRes := ConnectRes.ok }

/-- OS responses where the new fd is not below `maxsock` of `cfgW`. -/
def envOverCap : Env :=
  { socketFd := 200, fcntlOk := true, nodelayOk := true, bindOk := true,
    connectRes := ConnectRes.ok }

/-- OS responses where `bind()` fails. -/
def envBindFail : Env :=
  { socketFd := 7, fcntlOk := true, nodelayOk := true, bindOk := false,
    connectRes := ConnectRes.ok }

/-- Configuration with server-level source binding enabled. -/
def cfgBind : Cfg := { cfgW with bindSrc := true }

/-- Configuration whose recount leaves no active and no backup server. -/
def cfgEmpty : Cfg := { cfgW with postAct := 0, postBck := 0 }

/-! Basic lemmas about the re-phasing loop. -/

theorem rephaseAux_spec (inter now : Nat) (hi : 1 ≤ inter) :
    ∀ k e, now + 1 - e ≤ k →
      now < rephaseAux k e now inter ∧
      ∃ m, rephaseAux k e now inter = e + m * inter ∧ (e ≤ now → 1 ≤ m) := by
  intro k
  induction k with
  | zero =>
    intro e he
    simp only [rephaseAux]
    exact ⟨by omega, 0, by omega, fun h => absurd h (by omega)⟩
  | succ k ih =>
    intro e he
    simp only [rephaseAux]
    by_cases hc : e ≤ now
    · rw [if_pos hc]
      obtain ⟨h1, m, h2, _⟩ := ih (e + inter) (by omega)
      refine ⟨h1, m + 1, ?_, fun _ => by omega⟩
      rw [h2, Nat.succ_mul]
      omega
    · rw [if_neg hc]
      exact ⟨by omega, 0, by omega, fun h => absurd h hc⟩

theorem rephase_gt (expire now inter : Nat) (hi : 1 ≤ inter) :
    now < rephase expire now inter :=
  (rephaseAux_spec inter now hi _ expire le_rfl).1

theorem rephase_phase (expire now inter : Nat) (hi : 1 ≤ inter) :
    ∃ m, rephase expire now inter = expire + m * inter := by
  obtain ⟨_, m, h, _⟩ := rephaseAux_spec inter now hi (now + 1 - expire) expire le_rfl
  exact ⟨m, h⟩

theorem rephase_eq_of_lt (expire now inter : Nat) (h : now < expire) :
    rephase expire now inter = expire := by
  unfold rephase
  have h0 : now + 1 - expire = 0 := by omega
  rw [h0]
  rfl

/-! Exit forms of the tick: the two branches that terminate an
invocation of `process_chk` without touching the server. -/

theorem chk_body_exit_idle (cfg : Cfg) (env : Env) (now : Nat)
    (cont : ChkState → Out) (st : ChkState)
    (h1 : st.srv.curfd < 0) (h2 : now < st.expire) :
    chk_body cfg env now cont st = (st, [], []) := by
  unfold chk_body
  rw [if_pos h1, if_pos h2]

theorem chk_body_exit_wait (cfg : Cfg) (env : Env) (now : Nat)
    (cont : ChkState → Out) (st : ChkState)
    (h1 : ¬ st.srv.curfd < 0) (h2 : st.srv.result = 0)
    (h3 : now < st.expire) :
    chk_body cfg env now cont st =
      ({ st with srv := { st.srv with result := 0 } }, [], []) := by
  have h4 : ¬ 0 < st.srv.result := by omega
  have h5 : ¬ (st.srv.result < 0 ∨ st.expire ≤ now) := by
    push_neg
    exact ⟨by omega, by omega⟩
  unfold chk_body
  rw [if_neg h1, if_neg h4, if_neg h5]

theorem chk_tick_exit_idle (fuel : Nat) (cfg : Cfg) (env : Env) (now : Nat)
    (st : ChkState) (h1 : st.srv.curfd < 0) (h2 : now < st.expire) :
    chk_tick (fuel + 1) cfg env now st = (st, [], []) := by
  show chk_body cfg env now (chk_tick fuel cfg env now) st = _
  exact chk_body_exit_idle cfg env now _ st h1 h2

theorem chk_tick_exit_wait (fuel : Nat) (cfg : Cfg) (env : Env) (now : Nat)
    (st : ChkState) (h1 : ¬ st.srv.curfd < 0) (h2 : st.srv.result = 0)
    (h3 : now < st.expire) :
    chk_tick (fuel + 1) cfg env now st =
      ({ st with srv := { st.srv with result := 0 } }, [], []) := by
  show chk_body cfg env now (chk_tick fuel cfg env now) st = _
  exact chk_body_exit_wait cfg env now _ st h1 h2 h3

theorem chk_tick3_exit_idle (cfg : Cfg) (env : Env) (now : Nat)
    (st : ChkState) (h1 : st.srv.curfd < 0) (h2 : now < st.expire) :
    chk_tick 3 cfg env now st = (st, [], []) :=
  chk_tick_exit_idle 2 cfg env now st h1 h2

theorem chk_tick3_exit_wait (cfg : Cfg) (env : Env) (now : Nat)
    (st : ChkState) (h1 : ¬ st.srv.curfd < 0) (h2 : st.srv.result = 0)
    (h3 : now < st.expire) :
    chk_tick 3 cfg env now st =
      ({ st with srv := { st.srv with result := 0 } }, [], []) :=
  chk_tick_exit_wait 2 cfg env now st h1 h2 h3

/-! One lemma per branch of `chk_body`, naming its exact output. -/

theorem chk_body_sockfail (cfg : Cfg) (env : Env) (now : Nat)
    (cont : ChkState → Out) (st : ChkState)
    (h1 : st.srv.curfd < 0) (h2 : ¬ now < st.expire)
    (h3 : ¬ (cfg.checked = false ∨ cfg.stopped = true))
    (h4 : env.socketFd = -1) :
    chk_body cfg env now cont st =
      cont { st with srv := { st.srv with result := 0 },
                     expire := rephase st.expire now st.srv.inter } := by
  unfold chk_body
  rw [if_pos h1, if_neg h2, if_neg h3, if_pos h4]

theorem chk_body_capsfail (cfg : Cfg) (env : Env) (now : Nat)
    (cont : ChkState → Out) (st : ChkState)
    (h1 : st.srv.curfd < 0) (h2 : ¬ now < st.expire)
    (h3 : ¬ (cfg.checked = false ∨ cfg.stopped = true))
    (h4 : ¬ env.socketFd = -1)
    (h5 : ¬ (env.socketFd < cfg.maxsock ∧ env.fcntlOk = true ∧
             env.nodelayOk = true)) :
    chk_body cfg env now cont st =
      addOut [Ev.closeFd env.socketFd] []
        (cont { st with srv := { st.srv with result := 0 },
                        expire := rephase st.expire now st.srv.inter }) := by
  unfold chk_body
  rw [if_pos h1, if_neg h2, if_neg h3, if_neg h4, if_pos h5]

theorem chk_body_bindfail (cfg : Cfg) (env : Env) (now : Nat)
    (cont : ChkState → Out) (st : ChkState)
    (h1 : st.srv.curfd < 0) (h2 : ¬ now < st.expire)
    (h3 : ¬ (cfg.checked = false ∨ cfg.stopped = true))
    (h4 : ¬ env.socketFd = -1)
    (h5 : env.socketFd < cfg.maxsock ∧ env.fcntlOk = true ∧
          env.nodelayOk = true)
    (h6 : (cfg.bindSrc = true ∨ cfg.pxBindSrc = true) ∧
          env.bindOk = false) :
    chk_body cfg env now cont st =
      addOut ([Ev.alertBind, Ev.closeFd env.socketFd] ++
          (consume_fail { st.srv with result := -1 } st.pendS cfg.postAct
            cfg.postBck).2.2.2)
        (consume_fail { st.srv with result := -1 } st.pendS cfg.postAct
          cfg.postBck).2.2.1
        (cont { st with
                srv := (consume_fail { st.srv with result := -1 } st.pendS
                  cfg.postAct cfg.postBck).1,
                pendS := (consume_fail { st.srv with result := -1 } st.pendS
                  cfg.postAct cfg.postBck).2.1,
                expire := rephase st.expire now st.srv.inter }) := by
  unfold chk_body
  rw [if_pos h1, if_neg h2, if_neg h3, if_neg h4,
      if_neg (not_not_intro h5), if_pos h6]

theorem chk_body_register (cfg : Cfg) (env : Env) (now : Nat)
    (cont : ChkState → Out) (st : ChkState)
    (h1 : st.srv.curfd < 0) (h2 : ¬ now < st.expire)
    (h3 : ¬ (cfg.checked = false ∨ cfg.stopped = true))
    (h4 : ¬ env.socketFd = -1)
    (h5 : env.socketFd < cfg.maxsock ∧ env.fcntlOk = true ∧
          env.nodelayOk = true)
    (h6 : ¬ ((cfg.bindSrc = true ∨ cfg.pxBindSrc = true) ∧
             env.bindOk = false))
    (h7 : env.connectRes = ConnectRes.ok ∨
          env.connectRes = ConnectRes.err CErr.einprogress) :
    chk_body cfg env now cont st =
      addOut [Ev.register env.socketFd, Ev.closeFd env.socketFd] []
        (cont { st with
                srv := { st.srv with result := 0, curfd := env.socketFd },
                expire := rephase (now + st.srv.inter) now
                            st.srv.inter }) := by
  unfold chk_body
  rw [if_pos h1, if_neg h2, if_neg h3, if_neg h4,
      if_neg (not_not_intro h5), if_neg h6]
  rcases h7 with h7 | h7 <;> rw [h7]

theorem chk_body_connnoop (cfg : Cfg) (env : Env) (now : Nat)
    (cont : ChkState → Out) (st : ChkState)
    (h1 : st.srv.curfd < 0) (h2 : ¬ now < st.expire)
    (h3 : ¬ (cfg.checked = false ∨ cfg.stopped = true))
    (h4 : ¬ env.socketFd = -1)
    (h5 : env.socketFd < cfg.maxsock ∧ env.fcntlOk = true ∧
          env.nodelayOk = true)
    (h6 : ¬ ((cfg.bindSrc = true ∨ cfg.pxBindSrc = true) ∧
             env.bindOk = false))
    (h7 : env.connectRes = ConnectRes.err CErr.ealready ∨
          env.connectRes = ConnectRes.err CErr.eisconn ∨
          env.connectRes = ConnectRes.err CErr.eagain) :
    chk_body cfg env now cont st =
      addOut [Ev.closeFd env.socketFd] []
        (cont { st with srv := { st.srv with result := 0 },
                        expire := rephase st.expire now st.srv.inter }) := by
  unfold chk_body
  rw [if_pos h1, if_neg h2, if_neg h3, if_neg h4,
      if_neg (not_not_intro h5), if_neg h6]
  rcases h7 with h7 | h7 | h7 <;> rw [h7]

theorem chk_body_connfail (cfg : Cfg) (env : Env) (now : Nat)
    (cont : ChkState → Out) (st : ChkState)
    (h1 : st.srv.curfd < 0) (h2 : ¬ now < st.expire)
    (h3 : ¬ (cfg.checked = false ∨ cfg.stopped = true))
    (h4 : ¬ env.socketFd = -1)
    (h5 : env.socketFd < cfg.maxsock ∧ env.fcntlOk = true ∧
          env.nodelayOk = true)
    (h6 : ¬ ((cfg.bindSrc = true ∨ cfg.pxBindSrc = true) ∧
             env.bindOk = false))
    (h7 : env.connectRes = ConnectRes.err CErr.other) :
    chk_body cfg env now cont st =
      addOut ([Ev.closeFd env.socketFd] ++
          (consume_fail { st.srv with result := -1 } st.pendS cfg.postAct
            cfg.postBck).2.2.2)
        (consume_fail { st.srv with result := -1 } st.pendS cfg.postAct
          cfg.postBck).2.2.1
        (cont { st with
                srv := (consume_fail { st.srv with result := -1 } st.pendS
                  cfg.postAct cfg.postBck).1,
                pendS := (consume_fail { st.srv with result := -1 } st.pendS
                  cfg.postAct cfg.postBck).2.1,
                expire := rephase st.expire now st.srv.inter }) := by
  unfold chk_body
  rw [if_pos h1, if_neg h2, if_neg h3, if_neg h4,
      if_neg (not_not_intro h5), if_neg h6, h7]

theorem chk_body_succ (cfg : Cfg) (env : Env) (now : Nat)
    (cont : ChkState → Out) (st : ChkState)
    (h1 : ¬ st.srv.curfd < 0) (h2 : 0 < st.srv.result) :
    chk_body cfg env now cont st =
      addOut ((consume_succ st.srv st.pendPx cfg.dynMax).2.2.2 ++
          [Ev.fdDelete st.srv.curfd])
        (consume_succ st.srv st.pendPx cfg.dynMax).2.2.1
        (cont { st with
                srv := { (consume_succ st.srv st.pendPx cfg.dynMax).1 with
                         curfd := -1 },
                pendPx := (consume_succ st.srv st.pendPx cfg.dynMax).2.1,
                expire := rephase st.expire now st.srv.inter }) := by
  unfold chk_body
  rw [if_neg h1, if_pos h2]

theorem chk_body_failprobe (cfg : Cfg) (env : Env) (now : Nat)
    (cont : ChkState → Out) (st : ChkState)
    (h1 : ¬ st.srv.curfd < 0) (h2 : ¬ 0 < st.srv.result)
    (h3 : st.srv.result < 0 ∨ st.expire ≤ now) :
    chk_body cfg env now cont st =
      addOut ((consume_fail st.srv st.pendS cfg.postAct cfg.postBck).2.2.2
          ++ [Ev.fdDelete st.srv.curfd])
        (consume_fail st.srv st.pendS cfg.postAct cfg.postBck).2.2.1
        (cont { st with
                srv := { (consume_fail st.srv st.pendS cfg.postAct
                  cfg.postBck).1 with curfd := -1 },
                pendS := (consume_fail st.srv st.pendS cfg.postAct
                  cfg.postBck).2.1,
                expire := rephase st.expire now st.srv.inter }) := by
  unfold chk_body
  rw [if_neg h1, if_neg h2, if_pos h3]

/-! Lemmas about the UP-edge drain loop. -/

theorem drain_maxconn_zero (sid dynMax : Nat) :
    ∀ (q : List Pendconn) (x : Nat),
      drain sid 0 dynMax q x =
        (q.map (fun p => drain_sess sid p.sess), [],
         q.flatMap (fun p => [Ev.freePend p.pid, Ev.wakeSess p.pid])) := by
  intro q
  induction q with
  | nil => intro x; simp [drain]
  | cons p rest ih => intro x; simp [drain, ih (x + 1)]

theorem drain_take_drop (sid mc dynMax : Nat) (hmc : mc ≠ 0) :
    ∀ (q : List Pendconn) (x : Nat),
      drain sid mc dynMax q x =
        ((q.take (dynMax - x)).map (fun p => drain_sess sid p.sess),
         q.drop (dynMax - x),
         (q.take (dynMax - x)).flatMap
           (fun p => [Ev.freePend p.pid, Ev.wakeSess p.pid])) := by
  intro q
  induction q with
  | nil =>
    intro x
    rw [drain]
    by_cases h : dynMax ≤ x
    · simp [hmc, h]
    · simp [hmc, h]
  | cons p rest ih =>
    intro x
    rw [drain]
    by_cases h : dynMax ≤ x
    · have h0 : dynMax - x = 0 := by omega
      simp [hmc, h, h0]
    · have h0 : dynMax - x = (dynMax - (x + 1)) + 1 := by omega
      rw [h0]
      simp [hmc, h, ih (x + 1)]

theorem drain_evs_shape (sid mc dynMax : Nat) :
    ∀ (q : List Pendconn) (x : Nat) (e : Ev),
      e ∈ (drain sid mc dynMax q x).2.2 →
      ∃ n, e = Ev.freePend n ∨ e = Ev.wakeSess n := by
  intro q
  induction q with
  | nil =>
    intro x e he
    rw [drain] at he
    by_cases h : mc ≠ 0 ∧ dynMax ≤ x
    · simp [h] at he
    · simp [h] at he
  | cons p rest ih =>
    intro x e he
    rw [drain] at he
    by_cases h : mc ≠ 0 ∧ dynMax ≤ x
    · simp [h] at he
    · simp only [if_neg h] at he
      simp only [List.mem_cons] at he
      rcases he with h1 | h1 | h1
      · exact ⟨p.pid, Or.inl h1⟩
      · exact ⟨p.pid, Or.inr h1⟩
      · exact ih (x + 1) e h1

/-! Field-preservation lemmas for the consumption steps. -/

theorem consume_fail_curfd (s : Server) (pend : List Pendconn)
    (a b : Nat) : (consume_fail s pend a b).1.curfd = s.curfd := by
  by_cases h : s.rise < s.health
  · simp [consume_fail, h]
  · by_cases h2 : s.health = s.rise <;>
      simp [consume_fail, set_server_down, h, h2]

theorem consume_fail_result (s : Server) (pend : List Pendconn)
    (a b : Nat) : (consume_fail s pend a b).1.result = s.result := by
  by_cases h : s.rise < s.health
  · simp [consume_fail, h]
  · by_cases h2 : s.health = s.rise <;>
      simp [consume_fail, set_server_down, h, h2]

theorem consume_fail_no_register (s : Server) (pend : List Pendconn)
    (a b : Nat) (fd : Int) :
    Ev.register fd ∉ (consume_fail s pend a b).2.2.2 := by
  by_cases h : s.rise < s.health
  · simp [consume_fail, h]
  · by_cases h2 : s.health = s.rise
    · by_cases h3 : b = 0 ∧ a = 0 <;>
        simp [consume_fail, set_server_down, h, h2, h3]
    · simp [consume_fail, set_server_down, h, h2]

theorem consume_succ_no_register (s : Server) (pendPx : List Pendconn)
    (dynMax : Nat) (fd : Int) :
    Ev.register fd ∉ (consume_succ s pendPx dynMax).2.2.2 := by
  by_cases h : s.rise ≤ s.health + 1
  · by_cases h2 : s.health + 1 = s.rise
    · intro he
      simp only [consume_succ, if_pos h, if_pos h2] at he
      rcases List.mem_append.mp he with h9 | h9
      · rcases List.mem_append.mp h9 with h10 | h10
        · simp at h10
        · obtain ⟨n, hn | hn⟩ :=
            drain_evs_shape s.sid s.maxconn dynMax pendPx 0 _ h10 <;>
            simp at hn
      · simp at h9
    · simp [consume_succ, h, h2]
  · simp [consume_succ, h]

theorem consume_succ_notice_iff (s : Server) (pendPx : List Pendconn)
    (dynMax : Nat) :
    Ev.logNotice ∈ (consume_succ s pendPx dynMax).2.2.2 ↔
      s.health + 1 = s.rise := by
  constructor
  · intro he
    by_contra h2
    by_cases h : s.rise ≤ s.health + 1
    · simp [consume_succ, h, h2] at he
    · simp [consume_succ, h] at he
  · intro h2
    have h : s.rise ≤ s.health + 1 := by omega
    simp [consume_succ, h, h2]

/-! Full-tick forms of the branches of `process_chk`, each obtained by
running one pass of the body and observing that the re-entry at
`new_chk` immediately re-queues (the freshly re-phased `expire` is in
the future when `inter ≥ 1`). -/

theorem process_chk_idle (cfg : Cfg) (env : Env) (now : Nat)
    (st : ChkState) (h1 : st.srv.curfd < 0) (h2 : now < st.expire) :
    process_chk cfg env now st = (st, [], []) := by
  have hstep : process_chk cfg env now st =
      chk_body cfg env now (chk_tick 3 cfg env now) st := rfl
  rw [hstep]
  exact chk_body_exit_idle cfg env now _ st h1 h2

theorem process_chk_skip (cfg : Cfg) (env : Env) (now : Nat)
    (st : ChkState) (h1 : st.srv.curfd < 0) (h2 : ¬ now < st.expire)
    (h3 : cfg.checked = false ∨ cfg.stopped = true) :
    process_chk cfg env now st =
      ({ st with expire := rephase st.expire now st.srv.inter }, [], []) := by
  have hstep : process_chk cfg env now st =
      chk_body cfg env now (chk_tick 3 cfg env now) st := rfl
  rw [hstep]
  unfold chk_body
  rw [if_pos h1, if_neg h2, if_pos h3]

theorem process_chk_wait (cfg : Cfg) (env : Env) (now : Nat)
    (st : ChkState) (h1 : ¬ st.srv.curfd < 0) (h2 : st.srv.result = 0)
    (h3 : now < st.expire) :
    process_chk cfg env now st =
      ({ st with srv := { st.srv with result := 0 } }, [], []) := by
  have hstep : process_chk cfg env now st =
      chk_body cfg env now (chk_tick 3 cfg env now) st := rfl
  rw [hstep]
  exact chk_body_exit_wait cfg env now _ st h1 h2 h3

theorem process_chk_sockfail (cfg : Cfg) (env : Env) (now : Nat)
    (st : ChkState) (h1 : st.srv.curfd < 0) (h2 : ¬ now < st.expire)
    (h3 : ¬ (cfg.checked = false ∨ cfg.stopped = true))
    (h4 : env.socketFd = -1) (hi : 1 ≤ st.srv.inter) :
    process_chk cfg env now st =
      ({ st with srv := { st.srv with result := 0 },
                 expire := rephase st.expire now st.srv.inter }, [], []) := by
  have hstep : process_chk cfg env now st =
      chk_body cfg env now (chk_tick 3 cfg env now) st := rfl
  rw [hstep, chk_body_sockfail cfg env now _ st h1 h2 h3 h4]
  exact chk_tick3_exit_idle cfg env now _ h1 (rephase_gt _ _ _ hi)

theorem process_chk_capsfail (cfg : Cfg) (env : Env) (now : Nat)
    (st : ChkState) (h1 : st.srv.curfd < 0) (h2 : ¬ now < st.expire)
    (h3 : ¬ (cfg.checked = false ∨ cfg.stopped = true))
    (h4 : ¬ env.socketFd = -1)
    (h5 : ¬ (env.socketFd < cfg.maxsock ∧ env.fcntlOk = true ∧
             env.nodelayOk = true)) (hi : 1 ≤ st.srv.inter) :
    process_chk cfg env now st =
      ({ st with srv := { st.srv with result := 0 },
                 expire := rephase st.expire now st.srv.inter }, [],
       [Ev.closeFd env.socketFd]) := by
  have hstep : process_chk cfg env now st =
      chk_body cfg env now (chk_tick 3 cfg env now) st := rfl
  rw [hstep, chk_body_capsfail cfg env now _ st h1 h2 h3 h4 h5,
      chk_tick3_exit_idle cfg env now
        { st with srv := { st.srv with result := 0 },
                  expire := rephase st.expire now st.srv.inter }
        h1 (rephase_gt st.expire now st.srv.inter hi)]
  simp [addOut]

theorem process_chk_bindfail (cfg : Cfg) (env : Env) (now : Nat)
    (st : ChkState) (h1 : st.srv.curfd < 0) (h2 : ¬ now < st.expire)
    (h3 : ¬ (cfg.checked = false ∨ cfg.stopped = true))
    (h4 : ¬ env.socketFd = -1)
    (h5 : env.socketFd < cfg.maxsock ∧ env.fcntlOk = true ∧
          env.nodelayOk = true)
    (h6 : (cfg.bindSrc = true ∨ cfg.pxBindSrc = true) ∧
          env.bindOk = false) (hi : 1 ≤ st.srv.inter) :
    process_chk cfg env now st =
      ({ st with
         srv := (consume_fail { st.srv with result := -1 } st.pendS
           cfg.postAct cfg.postBck).1,
         pendS := (consume_fail { st.srv with result := -1 } st.pendS
           cfg.postAct cfg.postBck).2.1,
         expire := rephase st.expire now st.srv.inter },
       (consume_fail { st.srv with result := -1 } st.pendS cfg.postAct
         cfg.postBck).2.2.1,
       [Ev.alertBind, Ev.closeFd env.socketFd] ++
         (consume_fail { st.srv with result := -1 } st.pendS cfg.postAct
           cfg.postBck).2.2.2) := by
  have hstep : process_chk cfg env now st =
      chk_body cfg env now (chk_tick 3 cfg env now) st := rfl
  have hcur : (consume_fail { st.srv with result := -1 } st.pendS
      cfg.postAct cfg.postBck).1.curfd < 0 := by
    rw [consume_fail_curfd]
    exact h1
  rw [hstep, chk_body_bindfail cfg env now _ st h1 h2 h3 h4 h5 h6,
      chk_tick3_exit_idle cfg env now _ hcur (rephase_gt _ _ _ hi)]
  simp [addOut]

theorem process_chk_register (cfg : Cfg) (env : Env) (now : Nat)
    (st : ChkState) (h1 : st.srv.curfd < 0) (h2 : ¬ now < st.expire)
    (h3 : ¬ (cfg.checked = false ∨ cfg.stopped = true))
    (h4 : ¬ env.socketFd = -1)
    (h5 : env.socketFd < cfg.maxsock ∧ env.fcntlOk = true ∧
          env.nodelayOk = true)
    (h6 : ¬ ((cfg.bindSrc = true ∨ cfg.pxBindSrc = true) ∧
             env.bindOk = false))
    (h7 : env.connectRes = ConnectRes.ok ∨
          env.connectRes = ConnectRes.err CErr.einprogress)
    (h8 : 0 ≤ env.socketFd) (hi : 1 ≤ st.srv.inter) :
    process_chk cfg env now st =
      ({ st with
         srv := { st.srv with result := 0, curfd := env.socketFd },
         expire := now + st.srv.inter }, [],
       [Ev.register env.socketFd, Ev.closeFd env.socketFd]) := by
  have hstep : process_chk cfg env now st =
      chk_body cfg env now (chk_tick 3 cfg env now) st := rfl
  rw [hstep, chk_body_register cfg env now _ st h1 h2 h3 h4 h5 h6 h7,
      rephase_eq_of_lt (now + st.srv.inter) now st.srv.inter (by omega)]
  have he := chk_tick3_exit_wait cfg env now
    { st with srv := { st.srv with result := 0, curfd := env.socketFd },
              expire := now + st.srv.inter }
    (not_lt.mpr h8) rfl (Nat.lt_add_of_pos_right hi)
  rw [he]
  simp [addOut]

theorem process_chk_connnoop (cfg : Cfg) (env : Env) (now : Nat)
    (st : ChkState) (h1 : st.srv.curfd < 0) (h2 : ¬ now < st.expire)
    (h3 : ¬ (cfg.checked = false ∨ cfg.stopped = true))
    (h4 : ¬ env.socketFd = -1)
    (h5 : env.socketFd < cfg.maxsock ∧ env.fcntlOk = true ∧
          env.nodelayOk = true)
    (h6 : ¬ ((cfg.bindSrc = true ∨ cfg.pxBindSrc = true) ∧
             env.bindOk = false))
    (h7 : env.connectRes = ConnectRes.err CErr.ealready ∨
          env.connectRes = ConnectRes.err CErr.eisconn ∨
          env.connectRes = ConnectRes.err CErr.eagain)
    (hi : 1 ≤ st.srv.inter) :
    process_chk cfg env now st =
      ({ st with srv := { st.srv with result := 0 },
                 expire := rephase st.expire now st.srv.inter }, [],
       [Ev.closeFd env.socketFd]) := by
  have hstep : process_chk cfg env now st =
      chk_body cfg env now (chk_tick 3 cfg env now) st := rfl
  rw [hstep, chk_body_connnoop cfg env now _ st h1 h2 h3 h4 h5 h6 h7,
      chk_tick3_exit_idle cfg env now
        { st with srv := { st.srv with result := 0 },
                  expire := rephase st.expire now st.srv.inter }
        h1 (rephase_gt st.expire now st.srv.inter hi)]
  simp [addOut]

theorem process_chk_connfail (cfg : Cfg) (env : Env) (now : Nat)
    (st : ChkState) (h1 : st.srv.curfd < 0) (h2 : ¬ now < st.expire)
    (h3 : ¬ (cfg.checked = false ∨ cfg.stopped = true))
    (h4 : ¬ env.socketFd = -1)
    (h5 : env.socketFd < cfg.maxsock ∧ env.fcntlOk = true ∧
          env.nodelayOk = true)
    (h6 : ¬ ((cfg.bindSrc = true ∨ cfg.pxBindSrc = true) ∧
             env.bindOk = false))
    (h7 : env.connectRes = ConnectRes.err CErr.other)
    (hi : 1 ≤ st.srv.inter) :
    process_chk cfg env now st =
      ({ st with
         srv := (consume_fail { st.srv with result := -1 } st.pendS
           cfg.postAct cfg.postBck).1,
         pendS := (consume_fail { st.srv with result := -1 } st.pendS
           cfg.postAct cfg.postBck).2.1,
         expire := rephase st.expire now st.srv.inter },
       (consume_fail { st.srv with result := -1 } st.pendS cfg.postAct
         cfg.postBck).2.2.1,
       [Ev.closeFd env.socketFd] ++
         (consume_fail { st.srv with result := -1 } st.pendS cfg.postAct
           cfg.postBck).2.2.2) := by
  have hstep : process_chk cfg env now st =
      chk_body cfg env now (chk_tick 3 cfg env now) st := rfl
  have hcur : (consume_fail { st.srv with result := -1 } st.pendS
      cfg.postAct cfg.postBck).1.curfd < 0 := by
    rw [consume_fail_curfd]
    exact h1
  rw [hstep, chk_body_connfail cfg env now _ st h1 h2 h3 h4 h5 h6 h7,
      chk_tick3_exit_idle cfg env now _ hcur (rephase_gt _ _ _ hi)]
  simp [addOut]

theorem process_chk_succ (cfg : Cfg) (env : Env) (now : Nat)
    (st : ChkState) (h1 : ¬ st.srv.curfd < 0) (h2 : 0 < st.srv.result)
    (hi : 1 ≤ st.srv.inter) :
    process_chk cfg env now st =
      ({ st with
         srv := { (consume_succ st.srv st.pendPx cfg.dynMax).1 with
                  curfd := -1 },
         pendPx := (consume_succ st.srv st.pendPx cfg.dynMax).2.1,
         expire := rephase st.expire now st.srv.inter },
       (consume_succ st.srv st.pendPx cfg.dynMax).2.2.1,
       (consume_succ st.srv st.pendPx cfg.dynMax).2.2.2 ++
         [Ev.fdDelete st.srv.curfd]) := by
  have hstep : process_chk cfg env now st =
      chk_body cfg env now (chk_tick 3 cfg env now) st := rfl
  rw [hstep, chk_body_succ cfg env now _ st h1 h2,
      chk_tick3_exit_idle cfg env now
        { st with
          srv := { (consume_succ st.srv st.pendPx cfg.dynMax).1 with
                   curfd := -1 },
          pendPx := (consume_succ st.srv st.pendPx cfg.dynMax).2.1,
          expire := rephase st.expire now st.srv.inter }
        (show (-1 : Int) < 0 by decide)
        (rephase_gt st.expire now st.srv.inter hi)]
  simp [addOut]

theorem process_chk_failprobe (cfg : Cfg) (env : Env) (now : Nat)
    (st : ChkState) (h1 : ¬ st.srv.curfd < 0) (h2 : ¬ 0 < st.srv.result)
    (h3 : st.srv.result < 0 ∨ st.expire ≤ now) (hi : 1 ≤ st.srv.inter) :
    process_chk cfg env now st =
      ({ st with
         srv := { (consume_fail st.srv st.pendS cfg.postAct
           cfg.postBck).1 with curfd := -1 },
         pendS := (consume_fail st.srv st.pendS cfg.postAct
           cfg.postBck).2.1,
         expire := rephase st.expire now st.srv.inter },
       (consume_fail st.srv st.pendS cfg.postAct cfg.postBck).2.2.1,
       (consume_fail st.srv st.pendS cfg.postAct cfg.postBck).2.2.2 ++
         [Ev.fdDelete st.srv.curfd]) := by
  have hstep : process_chk cfg env now st =
      chk_body cfg env now (chk_tick 3 cfg env now) st := rfl
  rw [hstep, chk_body_failprobe cfg env now _ st h1 h2 h3,
      chk_tick3_exit_idle cfg env now
        { st with
          srv := { (consume_fail st.srv st.pendS cfg.postAct
            cfg.postBck).1 with curfd := -1 },
          pendS := (consume_fail st.srv st.pendS cfg.postAct
            cfg.postBck).2.1,
          expire := rephase st.expire now st.srv.inter }
        (show (-1 : Int) < 0 by decide)
        (rephase_gt st.expire now st.srv.inter hi)]
  simp [addOut]

/-! Iteration of the liveness FSM over runs of identical probe
outcomes, for the hysteresis law. -/

theorem iter_fail_eq (s : Server) (h0 : s.health = s.rise + s.fall - 1)
    (hf : 1 ≤ s.fall) :
    ∀ k, k + 1 ≤ s.fall →
      (check_fail^[k]) s =
        { s with health := s.rise + s.fall - 1 - k,
                 failedChecks := s.failedChecks + k } := by
  intro k
  induction k with
  | zero =>
    intro _
    have e1 : s.rise + s.fall - 1 - 0 = s.health := by omega
    rw [Function.iterate_zero_apply, e1, Nat.add_zero]
  | succ k ih =>
    intro hk
    rw [Function.iterate_succ_apply', ih (by omega)]
    have hlt : s.rise < s.rise + s.fall - 1 - k := by omega
    simp [check_fail, consume_fail, hlt, Server.mk.injEq]
    omega

theorem iter_succ_eq (s : Server) (h0 : s.health = 0) (hr : 1 ≤ s.rise) :
    ∀ k, k + 1 ≤ s.rise →
      (check_succ^[k]) s = { s with health := k } := by
  intro k
  induction k with
  | zero =>
    intro _
    rw [Function.iterate_zero_apply, ← h0]
  | succ k ih =>
    intro hk
    rw [Function.iterate_succ_apply', ih (by omega)]
    have hge : ¬ (s.rise ≤ k + 1) := by omega
    simp [check_succ, consume_succ, hge, Server.mk.injEq]

/-- C1.  Hysteresis of the liveness FSM: starting from steady UP
(`health = rise + fall - 1`), exactly `fall` consecutive failed probes
trigger the DOWN edge — the edge condition `health == rise` first holds
when the `fall`-th failure is consumed, `down_trans` and `RUNNING` are
untouched by any shorter run, and the `fall`-th failure increments
`down_trans` and clears `RUNNING`; dually, from fully DOWN
(`health = 0`), exactly `rise` consecutive successful probes trigger the
UP edge — the edge condition `health + 1 == rise` first holds at the
`rise`-th success, no shorter run sets `RUNNING`, and the `rise`-th
success sets it. -/
theorem c1_hysteresis (s : Server) (hr : 1 ≤ s.rise) (hf : 1 ≤ s.fall) :
    (s.health = s.rise + s.fall - 1 →
      (∀ k, k + 1 < s.fall → ¬ fail_edge ((check_fail^[k]) s)) ∧
      fail_edge ((check_fail^[s.fall - 1]) s) ∧
      (∀ k, k < s.fall → ((check_fail^[k]) s).downTrans = s.downTrans ∧
        ((check_fail^[k]) s).running = s.running) ∧
      (check_fail^[s.fall]) s =
        { s with running := false, health := 0,
                 downTrans := s.downTrans + 1,
                 failedChecks := s.failedChecks + (s.fall - 1) }) ∧
    (s.health = 0 → s.running = false →
      (∀ k, k + 1 < s.rise → ¬ succ_edge ((check_succ^[k]) s)) ∧
      succ_edge ((check_succ^[s.rise - 1]) s) ∧
      (∀ k, k < s.rise → ((check_succ^[k]) s).running = false) ∧
      (check_succ^[s.rise]) s =
        { s with running := true,
                 health := s.rise + s.fall - 1 }) := by
  constructor
  · intro h0
    refine ⟨?_, ?_, ?_, ?_⟩
    · intro k hk
      rw [iter_fail_eq s h0 hf k (by omega)]
      simp only [fail_edge]
      omega
    · rw [iter_fail_eq s h0 hf (s.fall - 1) (by omega)]
      simp only [fail_edge]
      omega
    · intro k hk
      rw [iter_fail_eq s h0 hf k (by omega)]
      exact ⟨rfl, rfl⟩
    · have e1 : s.fall = s.fall - 1 + 1 := by omega
      rw [show (check_fail^[s.fall]) s = (check_fail^[s.fall - 1 + 1]) s by
            rw [← e1],
          Function.iterate_succ_apply',
          iter_fail_eq s h0 hf (s.fall - 1) (by omega)]
      have e2 : ¬ (s.rise < s.rise + s.fall - 1 - (s.fall - 1)) := by omega
      have e3 : s.rise + s.fall - 1 - (s.fall - 1) = s.rise := by omega
      simp [check_fail, consume_fail, set_server_down, e2, e3,
        Server.mk.injEq]
  · intro h0 hrun
    refine ⟨?_, ?_, ?_, ?_⟩
    · intro k hk
      rw [iter_succ_eq s h0 hr k (by omega)]
      simp only [succ_edge]
      omega
    · rw [iter_succ_eq s h0 hr (s.rise - 1) (by omega)]
      simp only [succ_edge]
      omega
    · intro k hk
      rw [iter_succ_eq s h0 hr k (by omega)]
      exact hrun
    · have e1 : s.rise = s.rise - 1 + 1 := by omega
      rw [show (check_succ^[s.rise]) s = (check_succ^[s.rise - 1 + 1]) s by
            rw [← e1],
          Function.iterate_succ_apply',
          iter_succ_eq s h0 hr (s.rise - 1) (by omega)]
      have e2 : s.rise ≤ s.rise - 1 + 1 := by omega
      have e3 : s.rise - 1 + 1 = s.rise := by omega
      simp [check_succ, consume_succ, e2, e3, Server.mk.injEq]

/-- Witness for C1 at `rise = 2`, `fall = 3`: from steady UP (health 4)
the third failure fires the DOWN edge and no earlier one does; from
fully DOWN the second success fires the UP edge and no earlier one
does. -/
theorem c1_hysteresis_witness :
    ¬ fail_edge ((check_fail^[1]) srvW) ∧
    fail_edge ((check_fail^[2]) srvW) ∧
    ((check_fail^[2]) srvW).downTrans = srvW.downTrans ∧
    ((check_fail^[3]) srvW).downTrans = srvW.downTrans + 1 ∧
    ¬ succ_edge ((check_succ^[0]) srvD0) ∧
    succ_edge ((check_succ^[1]) srvD0) ∧
    ((check_succ^[1]) srvD0).running = false ∧
    ((check_succ^[2]) srvD0).running = true := by
  have hA := (c1_hysteresis srvW (by decide) (by decide)).1 (by decide)
  have hB := (c1_hysteresis srvD0 (by decide) (by decide)).2 (by decide) rfl
  refine ⟨hA.1 1 (by decide), hA.2.1, (hA.2.2.1 2 (by decide)).1, ?_,
          hB.1 0 (by decide), hB.2.1, hB.2.2.1 1 (by decide), ?_⟩
  · show ((check_fail^[srvW.fall]) srvW).downTrans = srvW.downTrans + 1
    rw [hA.2.2.2]
  · show ((check_succ^[srvD0.rise]) srvD0).running = true
    rw [hB.2.2.2]

/-- C2.  Consumption of a failed or timed-out probe
(`result < 0 || expire <= now` with a check in flight): if
`health > rise`, only `health` is decremented and `failed_checks`
incremented (besides the probe teardown `curfd := -1`, `fd_delete`); if
`health == rise`, the DOWN edge fires exactly once — RUNNING cleared,
`health := 0`, recount and map recomputation, every pending connection
whose session backend has REDISP stripped of its sticky flags, its
server cleared, its cookie state flushed, its entry freed and its task
woken, an ALERT log, an EMERG log iff the recounted backend has zero
active and zero backup servers, and `down_trans` incremented; if
`health < rise`, `health` ends at 0 with no edge effects. -/
theorem c2_down_consume (cfg : Cfg) (env : Env) (now : Nat)
    (st : ChkState) (hfd : ¬ st.srv.curfd < 0)
    (hres : ¬ 0 < st.srv.result)
    (hcond : st.srv.result < 0 ∨ st.expire ≤ now)
    (hi : 1 ≤ st.srv.inter) :
    (st.srv.rise < st.srv.health →
      process_chk cfg env now st =
        ({ st with
           srv := { st.srv with
                    health := st.srv.health - 1,
                    failedChecks := st.srv.failedChecks + 1,
                    curfd := -1 },
           expire := rephase st.expire now st.srv.inter },
         [], [Ev.fdDelete st.srv.curfd])) ∧
    (st.srv.health = st.srv.rise →
      process_chk cfg env now st =
        ({ st with
           srv := { st.srv with
                    running := false,
                    health := 0,
                    downTrans := st.srv.downTrans + 1,
                    curfd := -1 },
           pendS := st.pendS.filter (fun p => !p.sess.beRedisp),
           expire := rephase st.expire now st.srv.inter },
         (st.pendS.filter (fun p => p.sess.beRedisp)).map
           (fun p => redisp_sess p.sess),
         ([Ev.recount, Ev.recalcMap] ++
            (st.pendS.filter (fun p => p.sess.beRedisp)).flatMap
              (fun p => [Ev.freePend p.pid, Ev.wakeSess p.pid]) ++
            [Ev.logAlert] ++
            (if cfg.postBck = 0 ∧ cfg.postAct = 0 then [Ev.logEmerg]
             else [])) ++ [Ev.fdDelete st.srv.curfd])) ∧
    (st.srv.health < st.srv.rise →
      process_chk cfg env now st =
        ({ st with
           srv := { st.srv with
                    running := false,
                    health := 0,
                    curfd := -1 },
           expire := rephase st.expire now st.srv.inter },
         [], [Ev.fdDelete st.srv.curfd])) := by
  rw [process_chk_failprobe cfg env now st hfd hres hcond hi]
  refine ⟨?_, ?_, ?_⟩
  · intro h
    simp [consume_fail, h]
  · intro h
    have h1 : ¬ st.srv.rise < st.srv.health := by omega
    simp [consume_fail, set_server_down, h1, h]
  · intro h
    have h1 : ¬ st.srv.rise < st.srv.health := by omega
    have h2 : ¬ st.srv.health = st.srv.rise := by omega
    simp [consume_fail, set_server_down, h1, h2]

/-- Witness for C2: a timed-out failed probe on a server at
`health = rise = 2` with one redispatchable and one sticky pending
connection; the DOWN edge redispatches exactly the REDISP session,
leaves the sticky one queued, bumps `down_trans`, and emits EMERG
exactly when the recount leaves no server. -/
theorem c2_down_consume_witness :
    (process_chk cfgW envInprog 50 stDown).1.srv.health = 0 ∧
    (process_chk cfgW envInprog 50 stDown).1.srv.running = false ∧
    (process_chk cfgW envInprog 50 stDown).1.srv.downTrans = 1 ∧
    (process_chk cfgW envInprog 50 stDown).2.1 = [redisp_sess sessRedisp] ∧
    (process_chk cfgW envInprog 50 stDown).1.pendS =
      [{ pid := 22, sess := sessSticky }] ∧
    Ev.logAlert ∈ (process_chk cfgW envInprog 50 stDown).2.2 ∧
    Ev.logEmerg ∉ (process_chk cfgW envInprog 50 stDown).2.2 ∧
    Ev.logEmerg ∈ (process_chk cfgEmpty envInprog 50 stDown).2.2 := by
  have hA := (c2_down_consume cfgW envInprog 50 stDown (by decide)
    (by decide) (by decide) (by decide)).2.1 (by decide)
  have hB := (c2_down_consume cfgEmpty envInprog 50 stDown (by decide)
    (by decide) (by decide) (by decide)).2.1 (by decide)
  rw [hA, hB]
  decide

/-- Counterexample to C3 as stated: on a successful probe consumed at
`health = rise = 2` (reachable from steady UP after two failures), the
code jumps `health` to `rise + fall - 1 = 4`, not to
`min(health + 1, rise + fall - 1) = 3`. -/
theorem c3_min_counterexample :
    ¬ ((process_chk cfgW envInprog 50 stRegain).1.srv.health =
        min (stRegain.srv.health + 1)
          (stRegain.srv.rise + stRegain.srv.fall - 1)) := by decide

/-- C3 (amended).  On a successful probe, the new health is
`health + 1` while `health + 1 < rise`, and `rise + fall - 1` as soon as
`health + 1 >= rise` (the code jumps straight to the clamp, instead of
the claimed `min(health + 1, rise + fall - 1)`); the UP edge (NOTICE
log) is emitted exactly when `health` crosses from `rise - 1` to `rise`;
RUNNING is set whenever `health + 1 >= rise` and is untouched
otherwise. -/
theorem c3_succ_amended (cfg : Cfg) (env : Env) (now : Nat)
    (st : ChkState) (hfd : ¬ st.srv.curfd < 0)
    (hres : 0 < st.srv.result) (hi : 1 ≤ st.srv.inter) :
    ((process_chk cfg env now st).1.srv.health =
      if st.srv.rise ≤ st.srv.health + 1 then st.srv.rise + st.srv.fall - 1
      else st.srv.health + 1) ∧
    ((process_chk cfg env now st).1.srv.running =
      if st.srv.rise ≤ st.srv.health + 1 then true else st.srv.running) ∧
    (Ev.logNotice ∈ (process_chk cfg env now st).2.2 ↔
      st.srv.health + 1 = st.srv.rise) := by
  rw [process_chk_succ cfg env now st hfd hres hi]
  refine ⟨?_, ?_, ?_⟩
  · by_cases h : st.srv.rise ≤ st.srv.health + 1
    · by_cases h2 : st.srv.health + 1 = st.srv.rise <;>
        simp [consume_succ, h, h2]
    · simp [consume_succ, h]
  · by_cases h : st.srv.rise ≤ st.srv.health + 1
    · by_cases h2 : st.srv.health + 1 = st.srv.rise <;>
        simp [consume_succ, h, h2]
    · simp [consume_succ, h]
  · simp [consume_succ_notice_iff]

/-- Witness for C3 (amended): success consumed at `health = 1`,
`rise = 2` sets `health = 4`, sets RUNNING, and emits the NOTICE log. -/
theorem c3_succ_amended_witness :
    (process_chk cfgW envInprog 50 stUp).1.srv.health = 4 ∧
    (process_chk cfgW envInprog 50 stUp).1.srv.running = true ∧
    Ev.logNotice ∈ (process_chk cfgW envInprog 50 stUp).2.2 := by
  have h := c3_succ_amended cfgW envInprog 50 stUp (by decide) (by decide)
    (by decide)
  refine ⟨?_, ?_, h.2.2.mpr (by decide)⟩
  · rw [h.1]
    decide
  · rw [h.2.1]
    decide

/-- C9.  On the UP edge, pending connections are popped FIFO from the
backend-wide queue and moved to the newly-UP server: when
`maxconn == 0` the drain empties the whole queue, otherwise it takes
the first `srv_dynamic_maxconn` entries and leaves the rest; every
drained session has its server set to this server and its task woken
(its pending entry is freed: it leaves the queue, and
`freePend`/`wakeSess` events are emitted per entry, see
`process_chk_succ` and `drain`). -/
theorem c9_up_drain (cfg : Cfg) (env : Env) (now : Nat) (st : ChkState)
    (hfd : ¬ st.srv.curfd < 0) (hres : 0 < st.srv.result)
    (hedge : st.srv.health + 1 = st.srv.rise) (hi : 1 ≤ st.srv.inter) :
    (st.srv.maxconn = 0 →
      (process_chk cfg env now st).1.pendPx = [] ∧
      (process_chk cfg env now st).2.1 =
        st.pendPx.map (fun p => drain_sess st.srv.sid p.sess)) ∧
    (st.srv.maxconn ≠ 0 →
      (process_chk cfg env now st).1.pendPx =
        st.pendPx.drop cfg.dynMax ∧
      (process_chk cfg env now st).2.1 =
        (st.pendPx.take cfg.dynMax).map
          (fun p => drain_sess st.srv.sid p.sess)) ∧
    (∀ ss ∈ (process_chk cfg env now st).2.1,
      ss.srv = some st.srv.sid ∧ ss.woken = true) := by
  have hle : st.srv.rise ≤ st.srv.health + 1 := by omega
  rw [process_chk_succ cfg env now st hfd hres hi]
  have pa : st.srv.maxconn = 0 →
      (consume_succ st.srv st.pendPx cfg.dynMax).2.1 = [] ∧
      (consume_succ st.srv st.pendPx cfg.dynMax).2.2.1 =
        st.pendPx.map (fun p => drain_sess st.srv.sid p.sess) := by
    intro hmc
    simp [consume_succ, hle, hedge, hmc, drain_maxconn_zero]
  have pb : st.srv.maxconn ≠ 0 →
      (consume_succ st.srv st.pendPx cfg.dynMax).2.1 =
        st.pendPx.drop cfg.dynMax ∧
      (consume_succ st.srv st.pendPx cfg.dynMax).2.2.1 =
        (st.pendPx.take cfg.dynMax).map
          (fun p => drain_sess st.srv.sid p.sess) := by
    intro hmc
    simp [consume_succ, hle, hedge,
      drain_take_drop st.srv.sid st.srv.maxconn cfg.dynMax hmc]
  refine ⟨fun hmc => pa hmc, fun hmc => pb hmc, ?_⟩
  intro ss hss
  by_cases hmc : st.srv.maxconn = 0
  · rw [(pa hmc).2] at hss
    obtain ⟨p, _, hp⟩ := List.mem_map.mp hss
    rw [← hp]
    exact ⟨rfl, rfl⟩
  · rw [(pb hmc).2] at hss
    obtain ⟨p, _, hp⟩ := List.mem_map.mp hss
    rw [← hp]
    exact ⟨rfl, rfl⟩

/-- Witness for C9: UP edge with `maxconn = 1`, `srv_dynamic_maxconn = 2`
and three queued sessions drains exactly the first two, FIFO. -/
theorem c9_up_drain_witness :
    (process_chk cfgW envInprog 50 stUp).1.pendPx =
      [{ pid := 33, sess := sessPx }] ∧
    (process_chk cfgW envInprog 50 stUp).2.1 =
      [drain_sess 0 sessPx, drain_sess 0 sessPx] ∧
    (drain_sess 0 sessPx).srv = some 0 ∧
    (drain_sess 0 sessPx).woken = true := by
  have h := (c9_up_drain cfgW envInprog 50 stUp (by decide) (by decide)
    (by decide) (by decide)).2.1 (by decide)
  rw [h.1, h.2]
  decide

/-- C4 evaluation at the failing input: a probe initiation whose
`connect()` reports `EINPROGRESS` registers fd 7 (`curfd := 7`,
`fd_insert`, callbacks) and then still emits `close(7)` — the
unconditional `close(fd)` at checks.c:419 runs even on the registration
path, so the registered descriptor is closed while `curfd` still holds
it.  This contradicts the claimed invariant that the probe driver closes
the socket only on failure paths taken before registration. -/
theorem c4_close_after_register :
    (process_chk cfgW envInprog 0 stIdle).2.2 =
      [Ev.register 7, Ev.closeFd 7] ∧
    (process_chk cfgW envInprog 0 stIdle).1.srv.curfd = 7 := by decide

/-- Counterexample to C5 as stated: the twelve-byte reply
`HTTP/1.1 200` meets the claim's conditions
(`len >= len("HTTP/1.0 000") = 12`, prefix `HTTP/1.`, byte 9 = '2') but
the code classifies it as failure, because the source compares `len`
against `sizeof("HTTP/1.0 000") = 13`, which counts the terminating
NUL. -/
theorem c5_http_len_counterexample :
    chk_classify optsHttp reply12 = -1 ∧
    12 ≤ reply12.length ∧ reply12.take 7 = http_sig ∧
    reply12.getD 9 0 = 50 := by decide

/-- C5 (amended).  Reply classification of the read-side handler: an
HTTP check succeeds iff `len >= 13` (the `sizeof` of `"HTTP/1.0 000"`,
one more than the string length), the first seven bytes are `HTTP/1.`
and byte 9 is '2' or '3'; an SSL3 check succeeds iff `len >= 5` and
byte 0 is 0x15 or 0x16; an SMTP check succeeds iff `len >= 3` and
byte 0 is '2'; every other reply classifies as failure (the
classification is always success or failure). -/
theorem c5_classify_amended (reply : List Nat) :
    (chk_classify optsHttp reply = 1 ↔
      13 ≤ reply.length ∧ reply.take 7 = http_sig ∧
      (reply.getD 9 0 = 50 ∨ reply.getD 9 0 = 51)) ∧
    (chk_classify optsSsl reply = 1 ↔
      5 ≤ reply.length ∧
      (reply.getD 0 0 = 0x15 ∨ reply.getD 0 0 = 0x16)) ∧
    (chk_classify optsSmtp reply = 1 ↔
      3 ≤ reply.length ∧ reply.getD 0 0 = 50) ∧
    (∀ opts : ChkOpts, chk_classify opts reply = 1 ∨
      chk_classify opts reply = -1) := by
  refine ⟨?_, ?_, ?_, ?_⟩
  · by_cases hP : 13 ≤ reply.length ∧ reply.take 7 = http_sig ∧
      (reply.getD 9 0 = 50 ∨ reply.getD 9 0 = 51)
    · simp [chk_classify, optsHttp, hP] <;> tauto
    · simp [chk_classify, optsHttp, hP] <;> tauto
  · by_cases hP : 5 ≤ reply.length ∧
      (reply.getD 0 0 = 0x15 ∨ reply.getD 0 0 = 0x16)
    · simp [chk_classify, optsSsl, hP] <;> tauto
    · simp [chk_classify, optsSsl, hP] <;> tauto
  · by_cases hP : 3 ≤ reply.length ∧ reply.getD 0 0 = 50
    · simp [chk_classify, optsSmtp, hP]
    · simp [chk_classify, optsSmtp, hP]
  · intro opts
    unfold chk_classify
    split_ifs <;> simp

/-- Counterexample to C6 as stated: with `result` already success (1),
a read-side failure classification (empty reply on an HTTP check, no
socket error) overwrites it with failure — the gate
`if (s->result != -1) s->result = result` at checks.c:264 protects an
earlier failure, not an earlier success. -/
theorem c6_success_overwritten_counterexample :
    (event_srv_chk_r false optsHttp (RecvRes.data []) 1).1 = -1 ∧
    ¬ (event_srv_chk_r false optsHttp (RecvRes.data []) 1).1 = 1 := by
  decide

/-- C6 (amended).  The read-side gate latches failure, not success:
once the per-probe `result` is failure (-1), any subsequent invocation
of the read-side handler — socket error, `EAGAIN`, or any reply
classification — leaves `result` equal to failure.  (An earlier
success, by contrast, is overwritten by a later failure classification,
see the counterexample.) -/
theorem c6_fail_latch_amended (sockErr : Bool) (opts : ChkOpts)
    (rcv : RecvRes) :
    (event_srv_chk_r sockErr opts rcv (-1)).1 = -1 := by
  by_cases h : sockErr = true
  · simp [event_srv_chk_r, h]
  · cases rcv <;> simp [event_srv_chk_r, h]

/-- Counterexample to C7 as stated: when the initiation `connect()`
fails with `EISCONN`, the code does not record a success and does not
register anything — the fd is closed, no result is set, `curfd` stays
none, and the probe is simply retried at the next interval. -/
theorem c7_eisconn_counterexample :
    (process_chk cfgW envIsconn 0 stIdle).2.2 = [Ev.closeFd 7] ∧
    (process_chk cfgW envIsconn 0 stIdle).1.srv.curfd = -1 ∧
    (process_chk cfgW envIsconn 0 stIdle).1.srv.result = 0 := by decide

/-- C7 (amended).  Outcome classification of the initiation
`connect()` (checks.c:391 and 414): return 0 or errno `EINPROGRESS`
are accepted as in progress — the fd is recorded in `curfd`, the
callbacks registered, and `expire` set to `now + inter`; errno
`EALREADY`, `EAGAIN` or `EISCONN` are absorbed as a no-op for this tick
— the socket is closed, nothing is registered, no result is recorded;
any other errno sets `result = failure` and the failure is consumed by
the FSM in the same tick. -/
theorem c7_connect_amended (cfg : Cfg) (env : Env) (now : Nat)
    (st : ChkState) (h1 : st.srv.curfd < 0) (h2 : ¬ now < st.expire)
    (h3 : ¬ (cfg.checked = false ∨ cfg.stopped = true))
    (h4 : ¬ env.socketFd = -1) (h8 : 0 ≤ env.socketFd)
    (h5 : env.socketFd < cfg.maxsock ∧ env.fcntlOk = true ∧
          env.nodelayOk = true)
    (h6 : ¬ ((cfg.bindSrc = true ∨ cfg.pxBindSrc = true) ∧
             env.bindOk = false))
    (hi : 1 ≤ st.srv.inter) :
    ((env.connectRes = ConnectRes.ok ∨
      env.connectRes = ConnectRes.err CErr.einprogress) →
       process_chk cfg env now st =
         ({ st with
            srv := { st.srv with result := 0, curfd := env.socketFd },
            expire := now + st.srv.inter }, [],
          [Ev.register env.socketFd, Ev.closeFd env.socketFd])) ∧
    ((env.connectRes = ConnectRes.err CErr.ealready ∨
      env.connectRes = ConnectRes.err CErr.eisconn ∨
      env.connectRes = ConnectRes.err CErr.eagain) →
       process_chk cfg env now st =
         ({ st with
            srv := { st.srv with result := 0 },
            expire := rephase st.expire now st.srv.inter }, [],
          [Ev.closeFd env.socketFd])) ∧
    (env.connectRes = ConnectRes.err CErr.other →
       (process_chk cfg env now st).1.srv.result = -1 ∧
       (process_chk cfg env now st).1.srv =
         (consume_fail { st.srv with result := -1 } st.pendS cfg.postAct
           cfg.postBck).1 ∧
       (process_chk cfg env now st).2.2 =
         [Ev.closeFd env.socketFd] ++
           (consume_fail { st.srv with result := -1 } st.pendS cfg.postAct
             cfg.postBck).2.2.2) := by
  refine ⟨?_, ?_, ?_⟩
  · intro h7
    exact process_chk_register cfg env now st h1 h2 h3 h4 h5 h6 h7 h8 hi
  · intro h7
    exact process_chk_connnoop cfg env now st h1 h2 h3 h4 h5 h6 h7 hi
  · intro h7
    rw [process_chk_connfail cfg env now st h1 h2 h3 h4 h5 h6 h7 hi]
    refine ⟨?_, rfl, rfl⟩
    rw [consume_fail_result]

/-- Witness for C7 (amended): `EINPROGRESS` registers fd 7 and anchors
`expire` at `now + inter`. -/
theorem c7_connect_amended_witness :
    process_chk cfgW envInprog 0 stIdle =
      ({ stIdle with
         srv := { srvW with result := 0, curfd := 7 },
         expire := 5 }, [],
       [Ev.register 7, Ev.closeFd 7]) := by
  have h := (c7_connect_amended cfgW envInprog 0 stIdle (by decide)
    (by decide) (by decide) (by decide) (by decide) (by decide)
    (by decide) (by decide)).1 (Or.inr rfl)
  rw [h]
  decide

/-- Counterexample to C8 as stated: a tick from phase
`initial_expire = 4`, `inter = 4` fired at `now = 5` that starts a probe
writes back `expire = now + inter = 9`, and `9` is not
`4 + k*4` for any `k` (since `(9 - 4) % 4 = 1 ≠ 0`): the registration
path re-anchors the phase at `now` instead of advancing the original
phase by whole steps. -/
theorem c8_phase_counterexample :
    (process_chk cfgW envInprog 5 stPhase).1.expire = 9 ∧
    (9 - stPhase.expire) % stPhase.srv.inter = 1 ∧
    ¬ ((9 - stPhase.expire) % stPhase.srv.inter = 0) := by decide

/-- C8 (amended).  After any tick (with `inter ≥ 1` and a well-formed
`socket()` result), the written-back deadline satisfies `expire > now`;
a tick that does not register a new probe writes back
`expire = entry expire + k*inter` for some `k ≥ 0` (the
`while expire <= now: expire += inter` idiom, or an untouched future
deadline); a tick that registers a new probe instead re-anchors the
phase, setting `expire = now + inter` as the connect timeout. -/
theorem c8_phase_amended (cfg : Cfg) (env : Env) (now : Nat)
    (st : ChkState) (hi : 1 ≤ st.srv.inter)
    (hfd : env.socketFd = -1 ∨ 0 ≤ env.socketFd) :
    now < (process_chk cfg env now st).1.expire ∧
    ((∀ fd : Int, Ev.register fd ∉ (process_chk cfg env now st).2.2) →
      ∃ k, (process_chk cfg env now st).1.expire =
        st.expire + k * st.srv.inter) ∧
    (∀ fd : Int, Ev.register fd ∈ (process_chk cfg env now st).2.2 →
      (process_chk cfg env now st).1.expire = now + st.srv.inter) := by
  by_cases h1 : st.srv.curfd < 0
  · by_cases h2 : now < st.expire
    · rw [process_chk_idle cfg env now st h1 h2]
      exact ⟨h2, fun _ => ⟨0, by simp⟩, fun fd hm => absurd hm (by simp)⟩
    · by_cases h3 : cfg.checked = false ∨ cfg.stopped = true
      · rw [process_chk_skip cfg env now st h1 h2 h3]
        exact ⟨rephase_gt _ _ _ hi, fun _ => rephase_phase _ _ _ hi,
               fun fd hm => absurd hm (by simp)⟩
      · by_cases h4 : env.socketFd = -1
        · rw [process_chk_sockfail cfg env now st h1 h2 h3 h4 hi]
          exact ⟨rephase_gt _ _ _ hi, fun _ => rephase_phase _ _ _ hi,
                 fun fd hm => absurd hm (by simp)⟩
        · have h8 : 0 ≤ env.socketFd := by
            rcases hfd with h | h
            · exact absurd h h4
            · exact h
          by_cases h5 : env.socketFd < cfg.maxsock ∧ env.fcntlOk = true ∧
              env.nodelayOk = true
          · by_cases h6 : (cfg.bindSrc = true ∨ cfg.pxBindSrc = true) ∧
                env.bindOk = false
            · rw [process_chk_bindfail cfg env now st h1 h2 h3 h4 h5 h6 hi]
              refine ⟨rephase_gt _ _ _ hi, fun _ => rephase_phase _ _ _ hi,
                      fun fd hm => ?_⟩
              exfalso
              rcases List.mem_append.mp hm with hm | hm
              · simp at hm
              · exact consume_fail_no_register _ _ _ _ _ hm
            · cases hco : env.connectRes with
              | ok =>
                rw [process_chk_register cfg env now st h1 h2 h3 h4 h5 h6
                  (Or.inl hco) h8 hi]
                refine ⟨Nat.lt_add_of_pos_right hi, fun hno => ?_,
                        fun fd _ => rfl⟩
                exact absurd (by simp : Ev.register env.socketFd ∈
                  [Ev.register env.socketFd, Ev.closeFd env.socketFd])
                  (hno env.socketFd)
              | err e =>
                cases e with
                | einprogress =>
                  rw [process_chk_register cfg env now st h1 h2 h3 h4 h5 h6
                    (Or.inr hco) h8 hi]
                  refine ⟨Nat.lt_add_of_pos_right hi, fun hno => ?_,
                          fun fd _ => rfl⟩
                  exact absurd (by simp : Ev.register env.socketFd ∈
                    [Ev.register env.socketFd, Ev.closeFd env.socketFd])
                    (hno env.socketFd)
                | ealready =>
                  rw [process_chk_connnoop cfg env now st h1 h2 h3 h4 h5 h6
                    (Or.inl hco) hi]
                  exact ⟨rephase_gt _ _ _ hi,
                         fun _ => rephase_phase _ _ _ hi,
                         fun fd hm => absurd hm (by simp)⟩
                | eisconn =>
                  rw [process_chk_connnoop cfg env now st h1 h2 h3 h4 h5 h6
                    (Or.inr (Or.inl hco)) hi]
                  exact ⟨rephase_gt _ _ _ hi,
                         fun _ => rephase_phase _ _ _ hi,
                         fun fd hm => absurd hm (by simp)⟩
                | eagain =>
                  rw [process_chk_connnoop cfg env now st h1 h2 h3 h4 h5 h6
                    (Or.inr (Or.inr hco)) hi]
                  exact ⟨rephase_gt _ _ _ hi,
                         fun _ => rephase_phase _ _ _ hi,
                         fun fd hm => absurd hm (by simp)⟩
                | other =>
                  rw [process_chk_connfail cfg env now st h1 h2 h3 h4 h5 h6
                    hco hi]
                  refine ⟨rephase_gt _ _ _ hi,
                          fun _ => rephase_phase _ _ _ hi,
                          fun fd hm => ?_⟩
                  exfalso
                  rcases List.mem_append.mp hm with hm | hm
                  · simp at hm
                  · exact consume_fail_no_register _ _ _ _ _ hm
          · rw [process_chk_capsfail cfg env now st h1 h2 h3 h4 h5 hi]
            exact ⟨rephase_gt _ _ _ hi, fun _ => rephase_phase _ _ _ hi,
                   fun fd hm => absurd hm (by simp)⟩
  · by_cases h2 : 0 < st.srv.result
    · rw [process_chk_succ cfg env now st h1 h2 hi]
      refine ⟨rephase_gt _ _ _ hi, fun _ => rephase_phase _ _ _ hi,
              fun fd hm => ?_⟩
      exfalso
      rcases List.mem_append.mp hm with hm | hm
      · exact consume_succ_no_register _ _ _ _ hm
      · simp at hm
    · by_cases h3 : st.srv.result < 0 ∨ st.expire ≤ now
      · rw [process_chk_failprobe cfg env now st h1 h2 h3 hi]
        refine ⟨rephase_gt _ _ _ hi, fun _ => rephase_phase _ _ _ hi,
                fun fd hm => ?_⟩
        exfalso
        rcases List.mem_append.mp hm with hm | hm
        · exact consume_fail_no_register _ _ _ _ _ hm
        · simp at hm
      · have hparts := not_or.mp h3
        have hr0 : st.srv.result = 0 := by
          have := hparts.1
          omega
        have hlt : now < st.expire := by
          have := hparts.2
          omega
        rw [process_chk_wait cfg env now st h1 hr0 hlt]
        exact ⟨hlt, fun _ => ⟨0, by simp⟩,
               fun fd hm => absurd hm (by simp)⟩

/-- Witness for C8 (amended): the registering tick of the
counterexample state indeed satisfies `expire > now` and
`expire = now + inter`. -/
theorem c8_phase_amended_witness :
    5 < (process_chk cfgW envInprog 5 stPhase).1.expire ∧
    (process_chk cfgW envInprog 5 stPhase).1.expire =
      5 + stPhase.srv.inter := by
  have h := c8_phase_amended cfgW envInprog 5 stPhase (by decide)
    (Or.inr (by decide))
  exact ⟨h.1, h.2.2 7 (by decide)⟩

/-- C10.  Resource errors at probe initiation: if `socket()` fails the
tick is a synchronous no-op for liveness — `result` is reset to unset
and the task is re-phased to retry, with no event and no change to
health, counters or flags; if the new fd is not below `maxsock`, the
same no-op plus the `close(fd)`; a bind failure instead emits the
Alert, sets `result = failure`, and feeds the FSM one failed probe
(decrementing health and counting `failed_checks` when the server has
cushion). -/
theorem c10_resource_errors (cfg : Cfg) (env : Env) (now : Nat)
    (st : ChkState) (h1 : st.srv.curfd < 0) (h2 : ¬ now < st.expire)
    (h3 : ¬ (cfg.checked = false ∨ cfg.stopped = true))
    (hi : 1 ≤ st.srv.inter) :
    (env.socketFd = -1 →
      process_chk cfg env now st =
        ({ st with srv := { st.srv with result := 0 },
                   expire := rephase st.expire now st.srv.inter },
         [], []) ∧
      now < rephase st.expire now st.srv.inter) ∧
    (¬ env.socketFd = -1 → ¬ env.socketFd < cfg.maxsock →
      process_chk cfg env now st =
        ({ st with srv := { st.srv with result := 0 },
                   expire := rephase st.expire now st.srv.inter },
         [], [Ev.closeFd env.socketFd]) ∧
      now < rephase st.expire now st.srv.inter) ∧
    (¬ env.socketFd = -1 →
      (env.socketFd < cfg.maxsock ∧ env.fcntlOk = true ∧
        env.nodelayOk = true) →
      (cfg.bindSrc = true ∨ cfg.pxBindSrc = true) → env.bindOk = false →
      Ev.alertBind ∈ (process_chk cfg env now st).2.2 ∧
      (process_chk cfg env now st).1.srv.result = -1 ∧
      (st.srv.rise < st.srv.health →
        (process_chk cfg env now st).1.srv.health = st.srv.health - 1 ∧
        (process_chk cfg env now st).1.srv.failedChecks =
          st.srv.failedChecks + 1)) := by
  refine ⟨?_, ?_, ?_⟩
  · intro h4
    exact ⟨process_chk_sockfail cfg env now st h1 h2 h3 h4 hi,
           rephase_gt _ _ _ hi⟩
  · intro h4 hcap
    have h5 : ¬ (env.socketFd < cfg.maxsock ∧ env.fcntlOk = true ∧
        env.nodelayOk = true) := fun hh => hcap hh.1
    exact ⟨process_chk_capsfail cfg env now st h1 h2 h3 h4 h5 hi,
           rephase_gt _ _ _ hi⟩
  · intro h4 h5 hb hbo
    rw [process_chk_bindfail cfg env now st h1 h2 h3 h4 h5 ⟨hb, hbo⟩ hi]
    refine ⟨by simp, ?_, ?_⟩
    · rw [consume_fail_result]
    · intro hh
      constructor <;> simp [consume_fail, hh]

/-- Witness for C10: `socket()` failure and fd-over-cap leave the
server untouched with `result` unset; a bind failure on a cushioned
server (health 4 > rise 2) emits the Alert, records the failure, and
counts one failed check. -/
theorem c10_resource_errors_witness :
    process_chk cfgW envNoSock 0 stIdle =
      ({ stIdle with srv := { srvW with result := 0 }, expire := 5 },
       [], []) ∧
    process_chk cfgW envOverCap 0 stIdle =
      ({ stIdle with srv := { srvW with result := 0 }, expire := 5 },
       [], [Ev.closeFd 200]) ∧
    Ev.alertBind ∈ (process_chk cfgBind envBindFail 0 stIdle).2.2 ∧
    (process_chk cfgBind envBindFail 0 stIdle).1.srv.result = -1 ∧
    (process_chk cfgBind envBindFail 0 stIdle).1.srv.health = 3 ∧
    (process_chk cfgBind envBindFail 0 stIdle).1.srv.failedChecks = 1 := by
  have hA := (c10_resource_errors cfgW envNoSock 0 stIdle (by decide)
    (by decide) (by decide) (by decide)).1 rfl
  have hB := (c10_resource_errors cfgW envOverCap 0 stIdle (by decide)
    (by decide) (by decide) (by decide)).2.1 (by decide) (by decide)
  have hC := (c10_resource_errors cfgBind envBindFail 0 stIdle (by decide)
    (by decide) (by decide) (by decide)).2.2 (by decide) (by decide)
    (by decide) rfl
  refine ⟨?_, ?_, hC.1, hC.2.1, ?_, ?_⟩
  · rw [hA.1]
    decide
  · rw [hB.1]
    decide
  · rw [(hC.2.2 (by decide)).1]
    decide
  · rw [(hC.2.2 (by decide)).2]
    decide

end Checks
